import Mathlib

/-! Shallow embedding of the Zoho Projects bot's credential store, token manager,
rate-limited API gateway and paginated fetchers (src/mongodb.js, src/zoho.js),
with theorems checking the specification's claims about that layer. -/

namespace ZohoBot

/-- JS truthiness of an optional string (`undefined`, `null` and `""` are falsy). -/
def strTruthy : Option String → Bool
  | some s => s != ""
  | none => false

/-- JS truthiness of an optional integer (`undefined`, `null` and `0` are falsy). -/
def intTruthy : Option Int → Bool
  | some n => n != 0
  | none => false

/-- A stored user-token document (`userTokenSchema` in mongodb.js).
Times are epoch milliseconds. -/
structure TokenRecord where
  teamsChatId : String
  userId : String
  accessToken : String
  refreshToken : String
  expiresAt : Int
  createdAt : Int
  updatedAt : Int
deriving Repr, DecidableEq

/-- `UserToken.findOne({ teamsChatId })`: the collection holds at most one
document per `teamsChatId` (unique index), modelled as first match in a list. -/
def findOne (store : List TokenRecord) (id : String) : Option TokenRecord :=
  store.find? (fun r => r.teamsChatId == id)

/-- Replace the document matching `id` in the collection. -/
def replaceRecord (store : List TokenRecord) (id : String) (r : TokenRecord) :
    List TokenRecord :=
  store.map (fun x => if x.teamsChatId == id then r else x)

/-- The `pre('save')` middleware of `userTokenSchema` (mongodb.js): sets
`updatedAt` to now.  Mongoose only runs this document middleware on `save()`;
`findOneAndUpdate` (the operation `storeUserToken` uses) does not trigger it. -/
def preSaveHook (now : Int) (r : TokenRecord) : TokenRecord :=
  { r with updatedAt := now }

/-- `storeUserToken` (mongodb.js): `findOneAndUpdate({teamsChatId}, tokenData,
{upsert:true, new:true})` where `tokenData` holds `teamsChatId, userId,
accessToken, refreshToken, expiresAt` and `expiresAt = now + expiresIn*1000`.
On update of an existing document only those fields are set (the update payload
carries no `updatedAt` and the pre-save hook does not fire); on upsert-insert
the schema defaults fill `createdAt` and `updatedAt` with now. -/
def storeUserToken (store : List TokenRecord) (now : Int)
    (teamsChatId userId accessToken refreshToken : String) (expiresIn : Int) :
    List TokenRecord × TokenRecord :=
  let expiresAt := now + expiresIn * 1000
  match findOne store teamsChatId with
  | some r =>
    let r2 : TokenRecord :=
      { r with
        userId := userId
        accessToken := accessToken
        refreshToken := refreshToken
        expiresAt := expiresAt }
    (replaceRecord store teamsChatId r2, r2)
  | none =>
    let r2 : TokenRecord :=
      { teamsChatId := teamsChatId
        userId := userId
        accessToken := accessToken
        refreshToken := refreshToken
        expiresAt := expiresAt
        createdAt := now
        updatedAt := now }
    (store ++ [r2], r2)

/-- Fields passed by `refreshAccessToken` to `updateUserToken` (zoho.js). -/
structure TokenUpdateFields where
  accessToken : String
  refreshToken : String
  expiresAt : Int
deriving Repr, DecidableEq

/-- `updateUserToken` (mongodb.js): `findOneAndUpdate({teamsChatId},
{...updateData, updatedAt: Date.now()}, {new:true})`; without `upsert` it
returns null and writes nothing when no document matches. -/
def updateUserToken (store : List TokenRecord) (now : Int) (id : String)
    (u : TokenUpdateFields) : List TokenRecord × Option TokenRecord :=
  match findOne store id with
  | some r =>
    let r2 : TokenRecord :=
      { r with
        accessToken := u.accessToken
        refreshToken := u.refreshToken
        expiresAt := u.expiresAt
        updatedAt := now }
    (replaceRecord store id r2, some r2)
  | none => (store, none)

/-- Outcome of the OAuth refresh POST (axios either throws carrying upstream
detail, or resolves with a JSON body from which the code reads `access_token`
and `expires_in`; a rotated `refresh_token` may also be present in the body). -/
inductive OAuthOutcome where
  | failure (detail : String)
  | success (access_token : Option String) (expires_in : Option Int)
      (refresh_token : Option String)
deriving Repr, DecidableEq

/-- Errors thrown by the token manager (zoho.js auth helpers). -/
inductive TokenErr where
  | noRefreshToken
  | invalidRefreshResponse
  | upstream (detail : String)
  | tokenNotFound
deriving Repr, DecidableEq

/-- `refreshAccessToken` (zoho.js): resolve the refresh token to use (the
argument if truthy, else the stored one, failing when neither exists), issue
the OAuth request, and on a response carrying truthy `access_token` and
`expires_in` persist via `updateUserToken` keeping the refresh token that was
used; every failure path rethrows without touching the store. -/
def refreshAccessToken (store : List TokenRecord) (now : Int) (teamsChatId : String)
    (refreshTokenArg : Option String) (http : OAuthOutcome) :
    List TokenRecord × Except TokenErr (Option TokenRecord) :=
  let rt? : Except TokenErr String :=
    if strTruthy refreshTokenArg then .ok (refreshTokenArg.getD "")
    else
      match findOne store teamsChatId with
      | none => .error .noRefreshToken
      | some existing =>
        if existing.refreshToken != "" then .ok existing.refreshToken
        else .error .noRefreshToken
  match rt? with
  | .error e => (store, .error e)
  | .ok rt =>
    match http with
    | .failure d => (store, .error (.upstream d))
    | .success atk ein _ =>
      if strTruthy atk && intTruthy ein then
        let upd := updateUserToken store now teamsChatId
          { accessToken := atk.getD ""
            refreshToken := rt
            expiresAt := now + (ein.getD 0) * 1000 }
        (upd.1, .ok upd.2)
      else (store, .error .invalidRefreshResponse)

deriving instance DecidableEq for Except

/-- Result of `getUserToken` (zoho.js): the possibly-updated store, the
returned record or thrown error, and how many refresh calls were triggered. -/
structure UserTokenResult where
  store : List TokenRecord
  result : Except TokenErr (Option TokenRecord)
  refreshCalls : Nat
deriving Repr, DecidableEq

/-- `getUserToken` (zoho.js): load the record, throw when absent, refresh via
`refreshAccessToken` when `token.expiresAt < Date.now()`, otherwise return the
stored record unchanged. -/
def getUserToken (store : List TokenRecord) (now : Int) (teamsChatId : String)
    (http : OAuthOutcome) : UserTokenResult :=
  match findOne store teamsChatId with
  | none => { store := store, result := .error .tokenNotFound, refreshCalls := 0 }
  | some token =>
    if token.expiresAt < now then
      let r := refreshAccessToken store now teamsChatId (some token.refreshToken) http
      { store := r.1, result := r.2, refreshCalls := 1 }
    else
      { store := store, result := .ok (some token), refreshCalls := 0 }

/-- Outcome of one axios attempt inside `makeZohoAPICall` (zoho.js): a
successful response (abstracted to an id), or a thrown error carrying the
response status (none for a network error), the `retry-after` header parsed as
integer seconds when present, and the error body's `error.error_type` and
`error.title` fields. -/
inductive CallOutcome where
  | ok (resp : Nat)
  | err (status : Option Nat) (retryAfter : Option Nat)
      (errType : Option String) (errTitle : Option String)
deriving Repr, DecidableEq

/-- Outcome of the `refreshAccessToken(teamsChatId, null)` call made inside the
401 handler: a record whose `accessToken` field may be falsy, or a throw. -/
inductive RefreshOutcome where
  | ok (accessToken : Option String)
  | err
deriving Repr, DecidableEq

/-- How `makeZohoAPICall` finishes: return a response, throw the (original)
axios error, or throw "Max retries reached for Zoho API". -/
inductive GwResult where
  | ok (resp : Nat)
  | errOut (status : Option Nat) (retryAfter : Option Nat)
      (errType : Option String) (errTitle : Option String)
  | maxRetries
deriving Repr, DecidableEq

/-- Bookkeeping of a `makeZohoAPICall` run: axios attempts made, refresh calls
made, waits performed (ms), the token sent on each attempt, and how many
retry-budget slots (`retries--`) were consumed. -/
structure GwState where
  attempts : Nat
  refreshIdx : Nat
  waits : List Nat
  tokensUsed : List String
  budgetUsed : Nat
deriving Repr, DecidableEq

/-- The 400 body shape treated as rate limiting (zoho.js):
`error_type === "OPERATIONAL_VALIDATION_ERROR"` and
`title === "URL_ROLLING_THROTTLES_LIMIT_EXCEEDED"`. -/
def isThrottle400 (status : Option Nat) (etype etitle : Option String) : Bool :=
  status == some 400 && etype == some "OPERATIONAL_VALIDATION_ERROR" &&
    etitle == some "URL_ROLLING_THROTTLES_LIMIT_EXCEEDED"

/-- The `while (retries > 0)` loop of `makeZohoAPICall` (zoho.js).  `calls`
gives the outcome of the n-th axios attempt and `refreshes` the outcome of the
n-th in-loop token refresh.  On 429 it waits `retry-after` seconds when the
header is present, else `2^(3-retries)` seconds, then decrements the budget and
continues; on the throttle-shaped 400 it waits 120000 ms, decrements and
continues; on 401 with a truthy `teamsChatId` it refreshes and, when the new
record has a truthy access token, retries once with the new token, returning
that response on success and rethrowing the original error on any failure;
every other error is rethrown. -/
def gwLoop (calls : Nat → CallOutcome) (refreshes : Nat → RefreshOutcome)
    (teamsChatId : Option String) (token : String) :
    Nat → GwState → GwResult × GwState
  | 0, s => (.maxRetries, s)
  | (retries+1), s =>
    let s1 : GwState :=
      { s with attempts := s.attempts + 1, tokensUsed := s.tokensUsed ++ [token] }
    match calls s.attempts with
    | .ok r => (.ok r, s1)
    | .err status retryAfter etype etitle =>
      if status == some 429 then
        let waitMs := match retryAfter with
          | some ra => ra * 1000
          | none => 2 ^ (3 - (retries+1)) * 1000
        gwLoop calls refreshes teamsChatId token retries
          { s1 with waits := s1.waits ++ [waitMs], budgetUsed := s1.budgetUsed + 1 }
      else if isThrottle400 status etype etitle then
        gwLoop calls refreshes teamsChatId token retries
          { s1 with waits := s1.waits ++ [120000], budgetUsed := s1.budgetUsed + 1 }
      else if status == some 401 && strTruthy teamsChatId then
        match refreshes s1.refreshIdx with
        | .ok newTok? =>
          if strTruthy newTok? then
            let newTok := newTok?.getD ""
            let s2 : GwState :=
              { s1 with
                refreshIdx := s1.refreshIdx + 1
                attempts := s1.attempts + 1
                tokensUsed := s1.tokensUsed ++ [newTok] }
            match calls s1.attempts with
            | .ok r => (.ok r, s2)
            | .err _ _ _ _ => (.errOut status retryAfter etype etitle, s2)
          else
            (.errOut status retryAfter etype etitle,
              { s1 with refreshIdx := s1.refreshIdx + 1 })
        | .err =>
          (.errOut status retryAfter etype etitle,
            { s1 with refreshIdx := s1.refreshIdx + 1 })
      else
        (.errOut status retryAfter etype etitle, s1)

/-- `makeZohoAPICall` (zoho.js) from the top of the retry loop: the budget
starts at 3 retries. -/
def makeZohoAPICall (calls : Nat → CallOutcome) (refreshes : Nat → RefreshOutcome)
    (teamsChatId : Option String) (token : String) : GwResult × GwState :=
  gwLoop calls refreshes teamsChatId token 3
    { attempts := 0, refreshIdx := 0, waits := [], tokensUsed := [], budgetUsed := 0 }

/-- Module-level rate-limiter state in zoho.js (`lastApiCall`, `requestCount`,
`windowStart`); times are epoch milliseconds. -/
structure RateState where
  lastApiCall : Int
  requestCount : Nat
  windowStart : Int
deriving Repr, DecidableEq

/-- `WINDOW_DURATION` (zoho.js): 2 minutes in milliseconds. -/
def WINDOW_DURATION : Int := 120000

/-- `MAX_REQUESTS_PER_WINDOW` (zoho.js). -/
def MAX_REQUESTS_PER_WINDOW : Nat := 90

/-- `API_CALL_DELAY` (zoho.js): 1 second between calls. -/
def API_CALL_DELAY : Int := 1000

/-- Result of the rate-limiting prologue: the new limiter state, the wait
spent on the window budget (ms) and the wait spent on call spacing (ms). -/
structure AcquireResult where
  state : RateState
  budgetWait : Option Int
  spacingWait : Option Int
deriving Repr, DecidableEq

/-- The rate-limiting prologue of `makeZohoAPICall` (zoho.js): `now` is read
once on entry; the window is reset when strictly more than `WINDOW_DURATION`
has passed; when `requestCount` has reached `MAX_REQUESTS_PER_WINDOW` the call
sleeps for the remainder of the window, then resets the count and restarts the
window at the wake-up instant; the 1-second spacing check compares the entry
`now` against `lastApiCall`; finally `lastApiCall` is set to the post-wait
clock and `requestCount` is incremented.  Sleeps are modelled as exact. -/
def rateAcquire (s : RateState) (now : Int) : AcquireResult :=
  let rc0 : Nat := if now - s.windowStart > WINDOW_DURATION then 0 else s.requestCount
  let ws0 : Int := if now - s.windowStart > WINDOW_DURATION then now else s.windowStart
  let bw : Option Int :=
    if rc0 ≥ MAX_REQUESTS_PER_WINDOW then some (WINDOW_DURATION - (now - ws0)) else none
  let t1 : Int := now + bw.getD 0
  let rc1 : Nat := if rc0 ≥ MAX_REQUESTS_PER_WINDOW then 0 else rc0
  let ws1 : Int := if rc0 ≥ MAX_REQUESTS_PER_WINDOW then t1 else ws0
  let sw : Option Int :=
    if now - s.lastApiCall < API_CALL_DELAY then some (API_CALL_DELAY - (now - s.lastApiCall))
    else none
  let t2 : Int := t1 + sw.getD 0
  { state := { lastApiCall := t2, requestCount := rc1 + 1, windowStart := ws1 }
    budgetWait := bw
    spacingWait := sw }

/-- JS `String.prototype.toLowerCase` on ASCII data. -/
def lowerStr (s : String) : String :=
  String.mk (s.toList.map Char.toLower)

/-- Boolean list-prefix test used to build substring containment. -/
def isPre : List Char → List Char → Bool
  | [], _ => true
  | _ :: _, [] => false
  | a :: as, b :: bs => a == b && isPre as bs

/-- Boolean contiguous-sublist test on character lists. -/
def hasSub (hay sub : List Char) : Bool :=
  isPre sub hay ||
    match hay with
    | [] => false
    | _ :: t => hasSub t sub

/-- JS `hay.includes(sub)` substring containment. -/
def strIncludes (hay sub : String) : Bool :=
  hasSub hay.toList sub.toList

/-- Outcome of fetching one page through the Gateway: the page's item list on
success, or a thrown/failed call. -/
inductive PageOutcome (α : Type) where
  | ok (items : List α)
  | err
deriving Repr, DecidableEq

/-- Concatenation of the items of `k` consecutive pages starting at `page`
(a failed page contributes nothing). -/
def pagesConcat {α : Type} (fetch : Nat → PageOutcome α) (page : Nat) : Nat → List α
  | 0 => []
  | k+1 =>
    (match fetch page with
     | .ok items => items
     | .err => []) ++ pagesConcat fetch (page+1) k

/-- The list `[start, start+1, ..., start+k-1]`. -/
def pagesFrom (start : Nat) : Nat → List Nat
  | 0 => []
  | k+1 => start :: pagesFrom (start+1) k

/-- The `while (hasMore)` pagination loop of `getAllIssues` inside
`getProjectIssues` (zoho.js; `getAllProjects` inside `getProjectByName` is the
same shape): fetch `page`, stop on an empty page or on a failed page, otherwise
append the items and move to `page+1`.  The source loop is unbounded, so the
embedding carries fuel; results about it assume enough fuel to reach the
terminating page.  Returns the gathered items and the pages requested. -/
def getAllIssuesLoop {α : Type} (fetch : Nat → PageOutcome α) :
    Nat → Nat → List α × List Nat
  | 0, _ => ([], [])
  | fuel+1, page =>
    match fetch page with
    | .err => ([], [page])
    | .ok [] => ([], [page])
    | .ok items =>
      match getAllIssuesLoop fetch fuel (page+1) with
      | (rest, pages) => (items ++ rest, page :: pages)

/-- `getAllIssues` (zoho.js): pagination starts at page 1. -/
def getAllIssues {α : Type} (fetch : Nat → PageOutcome α) (fuel : Nat) :
    List α × List Nat :=
  getAllIssuesLoop fetch fuel 1

/-- The page loop of `getLatestTasks` inside `getPendingTasksByOwner`
(zoho.js): `currentPage` starts at 90 and decreases; the loop runs while
`currentPage > 0 && foundPages < 7`; a page with items bumps `foundPages` and
is concatenated; an empty page or a failed page is skipped and the scan simply
moves to the next lower page.  Returns the gathered tasks and the pages
requested. -/
def getLatestTasksLoop {α : Type} (fetch : Nat → PageOutcome α) :
    Nat → Nat → List α × List Nat
  | 0, _ => ([], [])
  | (cp+1), found =>
    if found ≥ 7 then ([], [])
    else
      match fetch (cp+1) with
      | .ok (i :: is) =>
        match getLatestTasksLoop fetch cp (found+1) with
        | (rest, pages) => ((i :: is) ++ rest, (cp+1) :: pages)
      | .ok [] =>
        match getLatestTasksLoop fetch cp found with
        | (rest, pages) => (rest, (cp+1) :: pages)
      | .err =>
        match getLatestTasksLoop fetch cp found with
        | (rest, pages) => (rest, (cp+1) :: pages)

/-- `getLatestTasks` (zoho.js): the backward scan starts at page 90 with no
pages found yet. -/
def getLatestTasks {α : Type} (fetch : Nat → PageOutcome α) : List α × List Nat :=
  getLatestTasksLoop fetch 90 0

/-- A portal user as read by `resolveOwnerId` (zoho.js). -/
structure ZUser where
  full_name : String
  zpuid : Option String
  id : Option String
deriving Repr, DecidableEq

/-- The resolved owner reference returned by `resolveOwnerId`. -/
structure OwnerRef where
  id : String
  name : String
deriving Repr, DecidableEq

/-- The matching pass of `resolveOwnerId` (zoho.js): exact case-insensitive
full-name equality first, then case-insensitive substring containment. -/
def resolveMatch (users : List ZUser) (ownerName : String) : Option ZUser :=
  match users.find? (fun u => lowerStr u.full_name == lowerStr ownerName) with
  | some u => some u
  | none => users.find? (fun u => strIncludes (lowerStr u.full_name) (lowerStr ownerName))

/-- `owner.zpuid || owner.id` (zoho.js), with absent values read as "". -/
def ownerIdOf (u : ZUser) : String :=
  if strTruthy u.zpuid then u.zpuid.getD "" else u.id.getD ""

/-- `resolveOwnerId` (zoho.js): the whole body sits in a try/catch whose catch
returns null, so a failed token lookup or users call (the `fetchUsers`
argument's error case) yields none, exactly as an empty user list or a missed
match does. -/
def resolveOwnerId (fetchUsers : Except String (List ZUser)) (ownerName : String) :
    Option OwnerRef :=
  match fetchUsers with
  | .error _ => none
  | .ok users =>
    if users.isEmpty then none
    else
      match resolveMatch users ownerName with
      | none => none
      | some u => some { id := ownerIdOf u, name := u.full_name }

/-- A task owner entry from `owners_and_work.owners` (zoho.js). -/
structure TaskOwner where
  name : String
  email : Option String
  first_name : String
  last_name : String
deriving Repr, DecidableEq

/-- The fields of an upstream task that `getPendingTasksByOwner` reads
(zoho.js); optional-chained accesses are modelled as Option fields. -/
structure ZTask where
  id : String
  name : String
  description : Option String
  statusName : Option String
  priority : Option String
  projectName : Option String
  start_date : Option String
  end_date : Option String
  owners : Option (List TaskOwner)
  completion_percentage : Option Nat
  is_completed : Option Bool
deriving Repr, DecidableEq

/-- JS `x || d` for an optional string `x` ("" is falsy). -/
def jsOrStr (v : Option String) (d : String) : String :=
  match v with
  | some s => if s == "" then d else s
  | none => d

/-- The per-owner match inside the pending filter (zoho.js): the owner's
lower-cased trimmed full name, first name, last name or display name must
contain the lower-cased trimmed query name or resolved owner name. -/
def ownerMatches (searchName resolvedName : String) (o : TaskOwner) : Bool :=
  let full := (lowerStr (o.first_name ++ " " ++ o.last_name)).trim
  let fn := (lowerStr o.first_name).trim
  let ln := (lowerStr o.last_name).trim
  let dn := lowerStr o.name
  let sn := (lowerStr searchName).trim
  let rn := (lowerStr resolvedName).trim
  strIncludes full sn || strIncludes fn sn || strIncludes ln sn || strIncludes dn sn ||
    strIncludes full rn || strIncludes fn rn || strIncludes ln rn || strIncludes dn rn

/-- The pending filter of `getPendingTasksByOwner` (zoho.js): completed tasks
and tasks without owners are dropped; otherwise some owner must match. -/
def isPendingTask (searchName resolvedName : String) (t : ZTask) : Bool :=
  if t.is_completed == some true then false
  else
    match t.owners with
    | none => false
    | some [] => false
    | some os => os.any (ownerMatches searchName resolvedName)

/-- An owner entry of the formatted response (zoho.js). -/
structure FormattedOwner where
  name : String
  email : Option String
  firstName : String
  lastName : String
deriving Repr, DecidableEq

/-- One formatted task returned by `getPendingTasksByOwner` (zoho.js). -/
structure FormattedTask where
  id : String
  name : String
  description : Option String
  status : String
  priority : String
  project : String
  startDate : Option String
  endDate : Option String
  dueDate : String
  owners : List FormattedOwner
  completionPercentage : Nat
  isCompleted : Bool
deriving Repr, DecidableEq

/-- The map step building a formatted task (zoho.js). -/
def formatTask (t : ZTask) : FormattedTask :=
  { id := t.id
    name := t.name
    description := t.description
    status := jsOrStr t.statusName "Unknown"
    priority := jsOrStr t.priority "none"
    project := jsOrStr t.projectName "Unknown Project"
    startDate := t.start_date
    endDate := t.end_date
    dueDate := jsOrStr t.end_date "N/A"
    owners := (t.owners.getD []).map (fun o =>
      { name := o.name
        email := o.email
        firstName := o.first_name
        lastName := o.last_name })
    completionPercentage := t.completion_percentage.getD 0
    isCompleted := t.is_completed.getD false }

/-- The outside world as seen by `getPendingTasksByOwner`, keyed by the
conversation identity (`teamsChatId`) each operation is performed under: the
users call backing `resolveOwnerId`, the `getUserToken` lookup, and the tasks
pages fetched by `getLatestTasks`. -/
structure BotEnv where
  usersFor : String → Except String (List ZUser)
  tokenFor : String → Except TokenErr TokenRecord
  tasksPageFor : String → Nat → PageOutcome ZTask

/-- `getPendingTasksByOwner(context, state, ownerName)` (zoho.js): the
conversation identity is the hardcoded literal "11111"; `context` and `state`
are never read.  Owner resolution failure yields an empty list; a
`getUserToken` throw (outside the try) propagates; otherwise the backward task
scan runs, pending tasks are filtered, capped at 15 and formatted. -/
def getPendingTasksByOwner {C S : Type} (env : BotEnv) (_context : C) (_state : S)
    (ownerName : String) : Except TokenErr (List FormattedTask) :=
  let teamsChatId := "11111"
  match resolveOwnerId (env.usersFor teamsChatId) ownerName with
  | none => .ok []
  | some resolvedOwner =>
    match env.tokenFor teamsChatId with
    | .error e => .error e
    | .ok _token =>
      let fetched := getLatestTasks (env.tasksPageFor teamsChatId)
      let pending := fetched.1.filter (isPendingTask ownerName resolvedOwner.name)
      .ok ((pending.take 15).map formatTask)

/-- Concrete stored record sitting exactly at the expiry boundary. -/
def c1Rec : TokenRecord :=
  { teamsChatId := "c"
    userId := "u"
    accessToken := "a"
    refreshToken := "r"
    expiresAt := 1000
    createdAt := 0
    updatedAt := 0 }

/-- C1 counterexample: with the stored record's `expiresAt` equal to the
current time (so `expiresAt ≤ now`), `getUserToken` performs no refresh call at
all — the code only refreshes when `expiresAt < now` — refuting the claim that
`expiresAt ≤ now` triggers exactly one refresh. -/
theorem c1_expiry_counterexample :
    ¬ (c1Rec.expiresAt ≤ 1000 →
        (getUserToken [c1Rec] 1000 "c" (.failure "net")).refreshCalls = 1) := by
  decide

/-- C1 (amended): `getUserToken` returns the stored record unchanged with no
refresh call when `now ≤ expiresAt`, and delegates to exactly one
`refreshAccessToken` call when `expiresAt < now` (strictly). -/
theorem c1_expiry_amended (store : List TokenRecord) (now : Int) (cid : String)
    (http : OAuthOutcome) (tok : TokenRecord)
    (hfind : findOne store cid = some tok) :
    (now ≤ tok.expiresAt →
      getUserToken store now cid http =
        { store := store, result := .ok (some tok), refreshCalls := 0 }) ∧
    (tok.expiresAt < now →
      getUserToken store now cid http =
        { store := (refreshAccessToken store now cid (some tok.refreshToken) http).1
          result := (refreshAccessToken store now cid (some tok.refreshToken) http).2
          refreshCalls := 1 }) := by
  constructor
  · intro h
    simp only [getUserToken, hfind]
    rw [if_neg (by omega)]
  · intro h
    simp only [getUserToken, hfind]
    rw [if_pos h]

/-- Witness for `c1_expiry_amended` at a concrete valid record. -/
theorem c1_expiry_amended_witness :
    getUserToken [c1Rec] 500 "c" (.failure "net") =
      { store := [c1Rec], result := .ok (some c1Rec), refreshCalls := 0 } :=
  (c1_expiry_amended [c1Rec] 500 "c" (.failure "net") c1Rec (by decide)).1 (by decide)

/-- C2: when the OAuth refresh request fails (network error / non-2xx, or a
2xx body whose `access_token` or `expires_in` is missing or falsy),
`refreshAccessToken` leaves the store byte-for-byte unchanged and throws; in
the network/non-2xx case the thrown error carries the upstream detail. -/
theorem c2_refresh_failure_preserves (store : List TokenRecord) (now : Int)
    (cid rt : String) (hrt : rt ≠ "") (http : OAuthOutcome)
    (hfail : (∃ d, http = .failure d) ∨
      (∃ atk ein rot, http = .success atk ein rot ∧
        (strTruthy atk && intTruthy ein) = false)) :
    (refreshAccessToken store now cid (some rt) http).1 = store ∧
    (∃ e, (refreshAccessToken store now cid (some rt) http).2 = .error e) ∧
    (∀ d, http = .failure d →
      (refreshAccessToken store now cid (some rt) http).2 =
        .error (.upstream d)) := by
  have hok : strTruthy (some rt) = true := by simp [strTruthy, hrt]
  rcases hfail with ⟨d, rfl⟩ | ⟨atk, ein, rot, rfl, hbad⟩
  · refine ⟨by simp [refreshAccessToken, hok], ⟨.upstream d, by simp [refreshAccessToken, hok]⟩, ?_⟩
    intro d2 hd
    injection hd with h
    subst h
    simp [refreshAccessToken, hok]
  · refine ⟨by simp [refreshAccessToken, hok, hbad],
      ⟨.invalidRefreshResponse, by simp [refreshAccessToken, hok, hbad]⟩, ?_⟩
    intro d2 hd
    simp at hd

/-- Witness for `c2_refresh_failure_preserves` on a concrete failing refresh. -/
theorem c2_refresh_failure_preserves_witness :
    (refreshAccessToken [] 0 "c" (some "rt") (.failure "boom")).1 = ([] : List TokenRecord) ∧
    (∃ e, (refreshAccessToken [] 0 "c" (some "rt") (.failure "boom")).2 = .error e) ∧
    (∀ d, (OAuthOutcome.failure "boom") = .failure d →
      (refreshAccessToken [] 0 "c" (some "rt") (.failure "boom")).2 =
        .error (.upstream d)) :=
  c2_refresh_failure_preserves [] 0 "c" "rt" (by decide) (.failure "boom")
    (Or.inl ⟨"boom", rfl⟩)

/-- Concrete stored record for the refresh-rotation check. -/
def c3Rec : TokenRecord :=
  { teamsChatId := "c"
    userId := "u"
    accessToken := "oldAT"
    refreshToken := "oldRT"
    expiresAt := 0
    createdAt := 0
    updatedAt := 0 }

/-- C3 counterexample: a successful refresh whose response contains the
rotated refresh token "rotRT" persists the old token "oldRT" — the code never
reads `refresh_token` from the response — refuting the claim that the response
token is preferred when present. -/
theorem c3_refresh_rotation_counterexample :
    ((refreshAccessToken [c3Rec] 5000 "c" (some "oldRT")
        (.success (some "newAT") (some 3600) (some "rotRT"))).2 =
      .ok (some
        { teamsChatId := "c"
          userId := "u"
          accessToken := "newAT"
          refreshToken := "oldRT"
          expiresAt := 3605000
          createdAt := 0
          updatedAt := 5000 })) ∧
    "oldRT" ≠ "rotRT" := by decide

/-- C3 (amended): on every successful refresh the persisted record keeps the
refresh token that was used in the request, for every possible `refresh_token`
field of the response (the response token is ignored), alongside the new
access token and `expiresAt = now + expires_in*1000`. -/
theorem c3_refresh_keeps_used_token (store : List TokenRecord) (now : Int)
    (cid rt atv : String) (ein : Int) (rot : Option String) (tok : TokenRecord)
    (hrt : rt ≠ "") (hat : atv ≠ "") (hei : ein ≠ 0)
    (hfind : findOne store cid = some tok) :
    (refreshAccessToken store now cid (some rt) (.success (some atv) (some ein) rot)).1 =
      replaceRecord store cid
        { tok with accessToken := atv, refreshToken := rt
                   expiresAt := now + ein * 1000, updatedAt := now } ∧
    (refreshAccessToken store now cid (some rt) (.success (some atv) (some ein) rot)).2 =
      .ok (some
        { tok with accessToken := atv, refreshToken := rt
                   expiresAt := now + ein * 1000, updatedAt := now }) := by
  constructor <;>
    simp [refreshAccessToken, strTruthy, intTruthy, hrt, hat, hei, updateUserToken, hfind]

/-- Witness for `c3_refresh_keeps_used_token` on a concrete rotated response. -/
theorem c3_refresh_keeps_used_token_witness :
    (refreshAccessToken [c3Rec] 5000 "c" (some "oldRT")
        (.success (some "newAT") (some 3600) (some "rotRT"))).1 =
      replaceRecord [c3Rec] "c"
        { c3Rec with accessToken := "newAT", refreshToken := "oldRT"
                     expiresAt := 5000 + 3600 * 1000, updatedAt := 5000 } ∧
    (refreshAccessToken [c3Rec] 5000 "c" (some "oldRT")
        (.success (some "newAT") (some 3600) (some "rotRT"))).2 =
      .ok (some
        { c3Rec with accessToken := "newAT", refreshToken := "oldRT"
                     expiresAt := 5000 + 3600 * 1000, updatedAt := 5000 }) :=
  c3_refresh_keeps_used_token [c3Rec] 5000 "c" "oldRT" "newAT" 3600 (some "rotRT")
    c3Rec (by decide) (by decide) (by decide) (by decide)

/-- C7: evaluating two `storeUserToken` upserts for the same conversation id
(at times 1000 then 2000, with different data).  Exactly one record remains,
reflecting the second call's values with `expiresAt = 2000 + 7200*1000`, but
`updatedAt` stays 1000: `findOneAndUpdate` bypasses the schema's pre-save hook
and the update payload carries no `updatedAt`, so `updatedAt` does not
increase on the second call. -/
theorem c7_store_twice_eval :
    (storeUserToken (storeUserToken [] 1000 "c" "u1" "a1" "r1" 3600).1
        2000 "c" "u2" "a2" "r2" 7200).1 =
      [{ teamsChatId := "c"
         userId := "u2"
         accessToken := "a2"
         refreshToken := "r2"
         expiresAt := 7202000
         createdAt := 1000
         updatedAt := 1000 }] := by decide

/-- C4: on an HTTP 401 first attempt with a conversation identity supplied,
the Gateway refreshes; when the refresh yields a truthy access token and the
immediately retried call succeeds, that retried response is returned, the new
token was substituted for the retry, no wait happened and zero retry-budget
slots were consumed; when the refresh throws, the original 401 error is
propagated. -/
theorem c4_reauth_on_401 (calls : Nat → CallOutcome) (refreshes : Nat → RefreshOutcome)
    (tid token : String) (htid : tid ≠ "")
    (ra : Option Nat) (et ett : Option String)
    (h401 : calls 0 = .err (some 401) ra et ett) :
    (∀ ntok r2, refreshes 0 = .ok (some ntok) → ntok ≠ "" → calls 1 = .ok r2 →
      makeZohoAPICall calls refreshes (some tid) token =
        (.ok r2,
          { attempts := 2, refreshIdx := 1, waits := [],
            tokensUsed := [token, ntok], budgetUsed := 0 })) ∧
    (refreshes 0 = .err →
      makeZohoAPICall calls refreshes (some tid) token =
        (.errOut (some 401) ra et ett,
          { attempts := 1, refreshIdx := 1, waits := [],
            tokensUsed := [token], budgetUsed := 0 })) := by
  constructor
  · intro ntok r2 href hn h1
    simp [makeZohoAPICall, gwLoop, isThrottle400, strTruthy, htid, h401, href, hn, h1]
  · intro href
    simp [makeZohoAPICall, gwLoop, isThrottle400, strTruthy, htid, h401, href]

/-- Concrete attempt outcomes: a 401 then a success. -/
def c4Calls : Nat → CallOutcome := fun n =>
  if n == 0 then .err (some 401) none none none else .ok 77

/-- Concrete refresh outcomes: always succeed with token "tok2". -/
def c4Refreshes : Nat → RefreshOutcome := fun _ => .ok (some "tok2")

/-- Witness for `c4_reauth_on_401` on one 401 followed by a successful
refresh and retried call. -/
theorem c4_reauth_on_401_witness :
    makeZohoAPICall c4Calls c4Refreshes (some "chat") "tok1" =
      (.ok 77,
        { attempts := 2, refreshIdx := 1, waits := [],
          tokensUsed := ["tok1", "tok2"], budgetUsed := 0 }) :=
  (c4_reauth_on_401 c4Calls c4Refreshes "chat" "tok1" (by decide) none none none
    (by decide)).1 "tok2" 77 (by decide) (by decide) (by decide)

/-- C5: three consecutive 429 responses consume the whole 3-attempt budget and
end in the retries-exhausted error; each 429 waits the `Retry-After` header
value in seconds when the header is present (the middle attempt here) and
otherwise `2^attempt` seconds for 0-based attempt number (1s for attempt 0,
4s for attempt 2). -/
theorem c5_429_retry_exhaustion (calls : Nat → CallOutcome) (refreshes : Nat → RefreshOutcome)
    (tid : Option String) (token : String) (ra : Nat)
    (et0 ett0 et1 ett1 et2 ett2 : Option String)
    (h0 : calls 0 = .err (some 429) none et0 ett0)
    (h1 : calls 1 = .err (some 429) (some ra) et1 ett1)
    (h2 : calls 2 = .err (some 429) none et2 ett2) :
    makeZohoAPICall calls refreshes tid token =
      (.maxRetries,
        { attempts := 3, refreshIdx := 0, waits := [1000, ra * 1000, 4000],
          tokensUsed := [token, token, token], budgetUsed := 3 }) := by
  simp [makeZohoAPICall, gwLoop, h0, h1, h2]

/-- Concrete attempt outcomes: 429 on every attempt, with a Retry-After header
of 7 seconds on the second one. -/
def c5Calls : Nat → CallOutcome := fun n =>
  .err (some 429) (if n == 1 then some 7 else none) none none

/-- Witness for `c5_429_retry_exhaustion` on three consecutive 429s. -/
theorem c5_429_retry_exhaustion_witness :
    makeZohoAPICall c5Calls (fun _ => .err) none "tok" =
      (.maxRetries,
        { attempts := 3, refreshIdx := 0, waits := [1000, 7 * 1000, 4000],
          tokensUsed := ["tok", "tok", "tok"], budgetUsed := 3 }) :=
  c5_429_retry_exhaustion c5Calls (fun _ => .err) none "tok" 7 none none none none
    none none (by decide) (by decide) (by decide)

/-- C6 counterexample: with `now - windowStart` exactly equal to
`windowDuration` the code takes the non-reset branch (`>` is strict), so
`windowStart` is not moved to `now` (and the counter keeps accumulating),
refuting the claimed reset condition `now - windowStart ≥ windowDuration`. -/
theorem c6_window_reset_counterexample :
    ¬ ((120000 : Int) - 0 ≥ WINDOW_DURATION →
        (rateAcquire { lastApiCall := 0, requestCount := 5, windowStart := 0 }
          120000).state.windowStart = 120000) := by
  decide

/-- C6 (amended): the window resets exactly when `now - windowStart` strictly
exceeds `windowDuration`; when the counter has reached `maxCallsPerWindow`
within the window the caller suspends for the remainder of the window
(`windowDuration - (now - windowStart)`), the counter restarts at this call
and the new window starts at the old window's boundary; and after any acquire
the per-window counter never exceeds `maxCallsPerWindow`. -/
theorem c6_window_reset_amended (s : RateState) (now : Int) :
    (now - s.windowStart > WINDOW_DURATION →
      (rateAcquire s now).state.requestCount = 1 ∧
      (rateAcquire s now).state.windowStart = now ∧
      (rateAcquire s now).budgetWait = none) ∧
    (now - s.windowStart ≤ WINDOW_DURATION →
      s.requestCount ≥ MAX_REQUESTS_PER_WINDOW →
      (rateAcquire s now).budgetWait = some (WINDOW_DURATION - (now - s.windowStart)) ∧
      (rateAcquire s now).state.requestCount = 1 ∧
      (rateAcquire s now).state.windowStart = s.windowStart + WINDOW_DURATION) ∧
    (rateAcquire s now).state.requestCount ≤ MAX_REQUESTS_PER_WINDOW := by
  refine ⟨?_, ?_, ?_⟩
  · intro h
    simp [rateAcquire, h, MAX_REQUESTS_PER_WINDOW]
  · intro h hc
    have h1 : ¬ (now - s.windowStart > WINDOW_DURATION) := not_lt.mpr h
    simp [rateAcquire, h1, hc]
    omega
  · by_cases h1 : now - s.windowStart > WINDOW_DURATION
    · simp [rateAcquire, h1, MAX_REQUESTS_PER_WINDOW]
    · by_cases hc : s.requestCount ≥ MAX_REQUESTS_PER_WINDOW
      · simp [rateAcquire, h1, hc]
        decide
      · simp [rateAcquire, h1, hc]
        simp only [MAX_REQUESTS_PER_WINDOW] at hc ⊢
        omega

/-- Witness for `c6_window_reset_amended`: a full window (90 calls) observed
mid-window makes the next call wait out the remaining 119900 ms and restart
the window at its boundary. -/
theorem c6_window_reset_amended_witness :
    (rateAcquire { lastApiCall := 0, requestCount := 90, windowStart := 0 } 100).budgetWait =
      some (WINDOW_DURATION - (100 - 0)) ∧
    (rateAcquire { lastApiCall := 0, requestCount := 90, windowStart := 0 } 100).state.requestCount = 1 ∧
    (rateAcquire { lastApiCall := 0, requestCount := 90, windowStart := 0 } 100).state.windowStart =
      0 + WINDOW_DURATION :=
  (c6_window_reset_amended { lastApiCall := 0, requestCount := 90, windowStart := 0 } 100).2.1
    (by decide) (by decide)

/-- Concrete task pages: page 90 fails, page 89 has one task, all lower pages
fail. -/
def c8Fetch : Nat → PageOutcome Nat := fun p => if p == 89 then .ok [891] else .err

/-- C8 counterexample: the tasks fetcher (`getLatestTasks`) does not follow
the claimed pattern.  On a concrete page function whose very first fetched
page (90) fails, it does not stop paginating: its first two requests are
pages 90 then 89 (decreasing, not increasing page numbers) and it still
returns page 89's items instead of treating the failure as end-of-data. -/
theorem c8_pagination_counterexample :
    (getLatestTasks c8Fetch).1 = [891] ∧
    (getLatestTasks c8Fetch).2.take 2 = [90, 89] := by decide

/-- Behaviour of the forward pagination loop: when pages `page..page+k-1` are
non-empty and page `page+k` is empty or fails, the loop (given enough fuel)
returns the concatenation of the first `k` pages and requested exactly pages
`page..page+k`. -/
theorem getAllIssuesLoop_spec {α : Type} (fetch : Nat → PageOutcome α) :
    ∀ (k page fuel : Nat),
      (∀ i, i < k → ∃ x, ∃ xs, fetch (page + i) = .ok (x :: xs)) →
      (fetch (page + k) = .ok [] ∨ fetch (page + k) = .err) →
      k + 1 ≤ fuel →
      getAllIssuesLoop fetch fuel page =
        (pagesConcat fetch page k, pagesFrom page (k + 1)) := by
  intro k
  induction k with
  | zero =>
    intro page fuel _ hstop hfuel
    obtain ⟨f, rfl⟩ : ∃ f, fuel = f + 1 := ⟨fuel - 1, by omega⟩
    rcases hstop with h | h <;>
      rw [Nat.add_zero] at h <;>
      simp [getAllIssuesLoop, h, pagesConcat, pagesFrom]
  | succ k ih =>
    intro page fuel hpages hstop hfuel
    obtain ⟨f, rfl⟩ : ∃ f, fuel = f + 1 := ⟨fuel - 1, by omega⟩
    obtain ⟨x, xs, hx⟩ := hpages 0 (by omega)
    rw [Nat.add_zero] at hx
    have hrec := ih (page + 1) f
      (fun i hi => by
        obtain ⟨y, ys, hy⟩ := hpages (i + 1) (by omega)
        exact ⟨y, ys, by rw [show page + 1 + i = page + (i + 1) by omega]; exact hy⟩)
      (by rw [show page + 1 + k = page + (k + 1) by omega]; exact hstop)
      (by omega)
    simp [getAllIssuesLoop, hx, hrec, pagesConcat, pagesFrom]

/-- C8 (amended, the part of the pattern the issues/projects fetchers do
satisfy): `getAllIssues` calls the Gateway with increasing page numbers
starting at 1 until a page returns zero items or a page fails, and returns
the concatenation of the non-empty pages fetched before that. -/
theorem c8_pagination_amended {α : Type} (fetch : Nat → PageOutcome α) (k fuel : Nat)
    (hpages : ∀ i, i < k → ∃ x, ∃ xs, fetch (1 + i) = .ok (x :: xs))
    (hstop : fetch (1 + k) = .ok [] ∨ fetch (1 + k) = .err)
    (hfuel : k + 1 ≤ fuel) :
    getAllIssues fetch fuel = (pagesConcat fetch 1 k, pagesFrom 1 (k + 1)) :=
  getAllIssuesLoop_spec fetch k 1 fuel hpages hstop hfuel

/-- Concrete issue pages: two non-empty pages then an empty page. -/
def c8FetchOk : Nat → PageOutcome Nat := fun p =>
  if p == 1 then .ok [11, 12] else if p == 2 then .ok [21] else .ok []

/-- Witness for `c8_pagination_amended` on two non-empty pages followed by an
empty page. -/
theorem c8_pagination_amended_witness :
    getAllIssues c8FetchOk 10 = (pagesConcat c8FetchOk 1 2, pagesFrom 1 3) :=
  c8_pagination_amended c8FetchOk 2 10
    (fun i hi => by
      match i, hi with
      | 0, _ => exact ⟨11, [12], rfl⟩
      | 1, _ => exact ⟨21, [], rfl⟩)
    (Or.inl (by decide)) (by omega)

/-- A concrete portal user who does not match the query "raj". -/
def c9User : ZUser := { full_name := "Someone Else", zpuid := some "z1", id := some "i1" }

/-- C9 counterexample: a transport failure makes `resolveOwnerId` return the
very same `none` that a genuinely missed match returns (the body's catch-all
returns null), refuting the claim that `absent` arises only from an obtained
user list with no matching candidate. -/
theorem c9_resolver_counterexample :
    resolveOwnerId (.error "ECONNREFUSED") "raj" = none ∧
    resolveOwnerId (.ok [c9User]) "raj" = none := by decide

/-- C9 (amended): `resolveOwnerId` returns `none` both on transport or
authentication failure and on an obtained list with no match (the two are not
distinguished); on a match it returns the matched user's id and full name,
and exact case-insensitive full-name equality is preferred over substring
containment. -/
theorem c9_resolver_amended (users : List ZUser) (name e : String) (u : ZUser) :
    (resolveOwnerId (.error e) name = none) ∧
    (resolveMatch users name = none → resolveOwnerId (.ok users) name = none) ∧
    (resolveMatch users name = some u →
      resolveOwnerId (.ok users) name = some { id := ownerIdOf u, name := u.full_name }) ∧
    (users.find? (fun v => lowerStr v.full_name == lowerStr name) = some u →
      resolveMatch users name = some u) := by
  refine ⟨rfl, ?_, ?_, ?_⟩
  · intro h
    cases users with
    | nil => rfl
    | cons a l => simp [resolveOwnerId, h]
  · intro h
    cases users with
    | nil => simp [resolveMatch] at h
    | cons a l => simp [resolveOwnerId, h]
  · intro h
    simp [resolveMatch, h]

/-- Witness for `c9_resolver_amended`: an exact (case-insensitive) full-name
match resolves to that user's id and name. -/
theorem c9_resolver_amended_witness :
    resolveOwnerId (.ok [c9User]) "someone else" =
      some { id := ownerIdOf c9User, name := c9User.full_name } :=
  (c9_resolver_amended [c9User] "someone else" "" c9User).2.2.1 (by decide)

/-- C10: `getPendingTasksByOwner` performs every lookup under the hardcoded
conversation identity "11111": two invocations whose environments agree at
"11111" produce identical results for every pair of `context` and `state`
arguments (of any types) — the caller's conversation identity never
influences the output. -/
theorem c10_identity_independence {γ δ γ2 δ2 : Type} (env env2 : BotEnv)
    (ctx : γ) (st : δ) (ctx2 : γ2) (st2 : δ2) (ownerName : String)
    (husers : env.usersFor "11111" = env2.usersFor "11111")
    (htok : env.tokenFor "11111" = env2.tokenFor "11111")
    (htasks : env.tasksPageFor "11111" = env2.tasksPageFor "11111") :
    getPendingTasksByOwner env ctx st ownerName =
      getPendingTasksByOwner env2 ctx2 st2 ownerName := by
  simp only [getPendingTasksByOwner, husers, htok, htasks]

/-- A concrete environment for the identity-independence witness. -/
def c10Env : BotEnv :=
  { usersFor := fun _ => .ok [{ full_name := "Raj Kumar", zpuid := some "z9", id := some "i9" }]
    tokenFor := fun _ => .error .tokenNotFound
    tasksPageFor := fun _ _ => .err }

/-- Witness for `c10_identity_independence` with two unrelated context/state
pairs of different types. -/
theorem c10_identity_independence_witness :
    getPendingTasksByOwner c10Env (0 : Nat) "stateA" "raj" =
      getPendingTasksByOwner c10Env true (7 : Nat) "raj" :=
  c10_identity_independence c10Env c10Env 0 "stateA" true 7 "raj" rfl rfl rfl

end ZohoBot
